import Mathlib

/-!
Verification of the OxiBot WhatsApp bridge (bridge/src/whatsapp.ts and
bridge/src/server.ts) against its natural-language specification.

The TypeScript source is shallowly embedded: the loosely-typed Baileys
message envelope becomes a structure of `Option` fields (a missing or
`undefined` field is `none`), JavaScript string truthiness (empty string
is falsy) is modelled by `truthyStr`, and the event-driven connection
lifecycle of `WhatsAppClient` becomes an explicit step function over a
small state record driven by a list of events.
-/

namespace OxiBot

-- ─────────────────────────────────────────────
-- Message envelope model (whatsapp.ts, Baileys message objects)
-- ─────────────────────────────────────────────

/-- Model of `message.extendedTextMessage`: only the `text` field is read
(`message.extendedTextMessage?.text`). -/
structure ExtendedTextMessage where
  text : Option String
deriving DecidableEq

/-- Model of `message.imageMessage`: only `caption` is read. -/
structure ImageMessage where
  caption : Option String
deriving DecidableEq

/-- Model of `message.videoMessage`: only `caption` is read. -/
structure VideoMessage where
  caption : Option String
deriving DecidableEq

/-- Model of `message.documentMessage`: only `caption` is read. -/
structure DocumentMessage where
  caption : Option String
deriving DecidableEq

/-- Model of the `msg.message` payload: the fields probed by
`WhatsAppClient.extractMessageContent`. `audioMessage` carries no data the
code reads, only presence matters, so it is `Option Unit`. -/
structure MessageContent where
  conversation : Option String
  extendedTextMessage : Option ExtendedTextMessage
  imageMessage : Option ImageMessage
  videoMessage : Option VideoMessage
  documentMessage : Option DocumentMessage
  audioMessage : Option Unit
deriving DecidableEq

/-- Model of `msg.key` as read by the `messages.upsert` handler. -/
structure MsgKey where
  fromMe : Bool
  remoteJid : Option String
  remoteJidAlt : Option String
  id : Option String
deriving DecidableEq

/-- Model of one Baileys message envelope (`msg`). -/
structure WAMessage where
  key : MsgKey
  message : Option MessageContent
  messageTimestamp : Int
deriving DecidableEq

/-- JavaScript string truthiness: `if (s)` is taken exactly when `s` is
present and non-empty, so `none` and `some ""` are both falsy. -/
def truthyStr : Option String → Option String
  | some s => if s = "" then none else some s
  | none => none

/-- Embedding of `WhatsAppClient.extractMessageContent` (whatsapp.ts
lines 165-188): first-match extraction over the envelope fields, `none`
models returning `null`. -/
def extractMessageContent (msg : WAMessage) : Option String :=
  match msg.message with
  | none => none
  | some message =>
    match truthyStr message.conversation with
    | some t => some t
    | none =>
      match truthyStr (message.extendedTextMessage.bind ExtendedTextMessage.text) with
      | some t => some t
      | none =>
        match truthyStr (message.imageMessage.bind ImageMessage.caption) with
        | some c => some ("[Image] " ++ c)
        | none =>
          match truthyStr (message.videoMessage.bind VideoMessage.caption) with
          | some c => some ("[Video] " ++ c)
          | none =>
            match truthyStr (message.documentMessage.bind DocumentMessage.caption) with
            | some c => some ("[Document] " ++ c)
            | none =>
              match message.audioMessage with
              | some _ => some "[Voice Message]"
              | none => none

/-- The `InboundMessage` record forwarded to the Rust bot
(whatsapp.ts lines 27-34). -/
structure InboundMessage where
  id : String
  sender : String
  pn : String
  content : String
  timestamp : Int
  isGroup : Bool
deriving DecidableEq

/-- Embedding of the per-message body of the `messages.upsert` handler
(whatsapp.ts lines 134-153), for a batch whose `type` is `'notify'`:
the own-message and status-broadcast filters, content extraction with the
`if (!content) continue` falsiness check, and construction of the
`InboundMessage` passed to `onMessage`.  `none` models `continue`
(no message emitted). -/
def processMessage (msg : WAMessage) : Option InboundMessage :=
  if msg.key.fromMe = true then none
  else if msg.key.remoteJid = some "status@broadcast" then none
  else
    match extractMessageContent msg with
    | none => none
    | some content =>
      if content = "" then none
      else
        some {
          id := msg.key.id.getD "",
          sender := msg.key.remoteJid.getD "",
          pn := msg.key.remoteJidAlt.getD "",
          content := content,
          timestamp := msg.messageTimestamp,
          isGroup := (match msg.key.remoteJid with
                      | some j => j.endsWith "@g.us"
                      | none => false) }

-- ─────────────────────────────────────────────
-- Connection lifecycle model (whatsapp.ts, WhatsAppClient)
-- ─────────────────────────────────────────────

/-- State of the `WhatsAppClient` instance, plus trace instrumentation.
`sockPresent` models `this.sock !== null` and `reconnecting` the guard
flag of the same name.  The remaining fields are observables of the run,
not variables of the source: `pendingTimers` counts reconnect timers
scheduled by `setTimeout` and not yet fired, `timersScheduled` counts
them cumulatively, `sessionsCreated` counts calls to `makeWASocket`, and
`lastStatus` records the most recent string passed to `onStatus` (the
spec-level session-state projection broadcast to controllers). -/
structure ClientState where
  sockPresent : Bool
  reconnecting : Bool
  pendingTimers : Nat
  timersScheduled : Nat
  sessionsCreated : Nat
  lastStatus : Option String
deriving DecidableEq

/-- Baileys `DisconnectReason.loggedOut` (the only reason the handler
compares against, numeric value 401). -/
def loggedOut : Nat := 401

/-- Events driving the client: a call to `connect()`, a
`connection.update` with `connection === 'close'` carrying the Boom
status code, a `connection.update` with `connection === 'open'`, the
firing of a scheduled reconnect timer, and a call to `disconnect()`. -/
inductive CEvent
  | connectCall
  | connClose (statusCode : Nat)
  | connOpen
  | timerFire
  | disconnectCall
deriving DecidableEq

/-- Observable side effects of one step: an `onStatus` emission, the
scheduling of a reconnect timer with its delay in milliseconds, and the
creation of an upstream socket via `makeWASocket`. -/
inductive Effect
  | statusEmit (status : String)
  | scheduleReconnect (delayMs : Nat)
  | createSocket
deriving DecidableEq

/-- Embedding of the `WhatsAppClient` event handlers (whatsapp.ts
lines 62-124, 196-202) as a step function.  `connectCall` is the body of
`connect()` (unconditionally builds a fresh socket; no status emission).
`connClose`/`connOpen` are the `connection.update` handler, which exists
only once a socket has been created, so they are no-ops when no socket is
present.  `timerFire` is the `setTimeout` callback: clear `reconnecting`,
then call `connect()`.  `disconnectCall` is `disconnect()`: end the
socket and null it out (no timer is cancelled — the source stores no
timer handle). -/
def stepClient (s : ClientState) : CEvent → ClientState × List Effect
  | .connectCall =>
      ({ s with sockPresent := true, sessionsCreated := s.sessionsCreated + 1 },
       [.createSocket])
  | .connClose statusCode =>
      if s.sockPresent = false then (s, [])
      else
        let s1 := { s with lastStatus := some "disconnected" }
        if statusCode ≠ loggedOut ∧ s.reconnecting = false then
          ({ s1 with reconnecting := true,
                     pendingTimers := s1.pendingTimers + 1,
                     timersScheduled := s1.timersScheduled + 1 },
           [.statusEmit "disconnected", .scheduleReconnect 5000])
        else (s1, [.statusEmit "disconnected"])
  | .connOpen =>
      if s.sockPresent = false then (s, [])
      else ({ s with lastStatus := some "connected" }, [.statusEmit "connected"])
  | .timerFire =>
      if s.pendingTimers = 0 then (s, [])
      else
        ({ s with pendingTimers := s.pendingTimers - 1,
                  reconnecting := false,
                  sockPresent := true,
                  sessionsCreated := s.sessionsCreated + 1 },
         [.createSocket])
  | .disconnectCall =>
      if s.sockPresent = true then ({ s with sockPresent := false }, []) else (s, [])

/-- Initial client state: no socket, guard clear, nothing scheduled. -/
def initClient : ClientState :=
  { sockPresent := false, reconnecting := false, pendingTimers := 0,
    timersScheduled := 0, sessionsCreated := 0, lastStatus := none }

/-- Run the client over a list of events, discarding effects. -/
def runClient (s : ClientState) : List CEvent → ClientState
  | [] => s
  | e :: rest => runClient (stepClient s e).1 rest

/-- Reachability invariant tying the `reconnecting` guard to the number
of pending reconnect timers: the guard is set exactly while one timer is
pending. -/
def ClientInv (s : ClientState) : Prop :=
  (s.reconnecting = true ∧ s.pendingTimers = 1) ∨
  (s.reconnecting = false ∧ s.pendingTimers = 0)

/-- Outcome of `WhatsAppClient.sendMessage` (whatsapp.ts lines 191-194):
the guard is `if (!this.sock) throw new Error('Not connected')`;
otherwise the call is delegated to `this.sock.sendMessage`. -/
inductive SendOutcome
  | threwNotConnected
  | delegatedUpstream
deriving DecidableEq

/-- Embedding of `WhatsAppClient.sendMessage`'s control flow. -/
def sendMessage (s : ClientState) : SendOutcome :=
  if s.sockPresent = true then .delegatedUpstream else .threwNotConnected

-- ─────────────────────────────────────────────
-- Relay server model (server.ts, BridgeServer)
-- ─────────────────────────────────────────────

/-- A frame written back to a controller connection: the `error` and
`sent` acknowledgement objects of the protocol. -/
inductive OutFrame
  | errorF (err : String)
  | sentF (toAddr : String)
deriving DecidableEq

/-- Result of the `ws.on('message')` handler for one inbound frame:
the frames written to the requesting connection, and the frames sent to
any other connection (the handler never broadcasts). -/
structure HandlerResult where
  toRequester : List OutFrame
  toOthers : List OutFrame
deriving DecidableEq

/-- An inbound controller frame after the `JSON.parse` attempt.
`JSON.parse` is an external builtin: `malformed errText` models it
throwing, with `errText` the JavaScript `String(error)` rendering of the
exception; `parsedCmd` models a successfully parsed object with its
declared `type`, `to` and `text` fields. -/
inductive InFrame
  | malformed (errText : String)
  | parsedCmd (ty : String) (toAddr : String) (text : String)
deriving DecidableEq

/-- Embedding of `BridgeServer.handleCommand` (server.ts lines 101-124):
an unrecognized `type` answers with the unknown-command error frame; a
missing WhatsApp client answers with an error frame; otherwise the send
is delegated and either acknowledged with `sent` or — when
`sendMessage` throws — the exception propagates (`Except.error` carries
the JavaScript `String(error)` text of the thrown `Error`). -/
def handleCommand (waPresent : Bool) (wa : ClientState) (ty toAddr text : String) :
    Except String OutFrame :=
  if ty ≠ "send" then .ok (.errorF ("unknown command type: " ++ ty))
  else if waPresent = false then .ok (.errorF "WhatsApp not connected")
  else
    match sendMessage wa with
    | .delegatedUpstream =>
        let _ := text
        .ok (.sentF toAddr)
    | .threwNotConnected => .error "Error: Not connected"

/-- Embedding of the `ws.on('message')` handler (server.ts lines 76-84):
parse the frame, dispatch to `handleCommand`, and on any exception
(parse failure or a throw out of `handleCommand`) reply to the same
connection with an error frame carrying `String(error)`.  No path sends
to any other connection. -/
def onWsMessage (waPresent : Bool) (wa : ClientState) : InFrame → HandlerResult
  | .malformed errText => { toRequester := [.errorF errText], toOthers := [] }
  | .parsedCmd ty toAddr text =>
    match handleCommand waPresent wa ty toAddr text with
    | .ok f => { toRequester := [f], toOthers := [] }
    | .error e => { toRequester := [.errorF e], toOthers := [] }

/-- Events broadcast from the bridge to controllers
(server.ts lines 36-40). -/
inductive BridgeEvent
  | message (m : InboundMessage)
  | qr (code : String)
  | status (status : String)
  | errorEv (err : String)
deriving DecidableEq

/-- A registered controller connection: its transport state
(`readyState === WebSocket.OPEN`) and the frames written to it. -/
structure Conn where
  readyStateOpen : Bool
  sent : List String
deriving DecidableEq

/-- Embedding of `BridgeServer.broadcast` (server.ts lines 127-134).
`stringify` stands for the external `JSON.stringify`; it is applied once,
before the loop, and the resulting `data` is written to every registered
connection whose transport is open; other connections are left untouched. -/
def broadcast (stringify : BridgeEvent → String) (event : BridgeEvent)
    (clients : List Conn) : List Conn :=
  let data := stringify event
  clients.map fun c =>
    if c.readyStateOpen = true then { c with sent := c.sent ++ [data] } else c

-- ─────────────────────────────────────────────
-- Concrete envelopes used by witnesses and counterexamples
-- ─────────────────────────────────────────────

/-- A message payload with every probed field absent. -/
def emptyContent : MessageContent :=
  { conversation := none, extendedTextMessage := none, imageMessage := none,
    videoMessage := none, documentMessage := none, audioMessage := none }

/-- A plain inbound key: not own, ordinary individual chat. -/
def plainKey : MsgKey :=
  { fromMe := false, remoteJid := some "123@s.whatsapp.net",
    remoteJidAlt := none, id := some "A1" }

/-- Envelope carrying only a document caption. -/
def docOnlyMsg : WAMessage :=
  { key := plainKey,
    message := some { emptyContent with
      documentMessage := some { caption := some "quarterly report" } },
    messageTimestamp := 100 }

/-- Envelope carrying a voice message together with conversational text. -/
def audioPlusTextMsg : WAMessage :=
  { key := plainKey,
    message := some { emptyContent with
      conversation := some "hi", audioMessage := some () },
    messageTimestamp := 5 }

/-- Envelope carrying only a voice message. -/
def audioOnlyMsg : WAMessage :=
  { key := plainKey,
    message := some { emptyContent with audioMessage := some () },
    messageTimestamp := 7 }

/-- An own (`fromMe`) envelope with extractable text. -/
def ownMsg : WAMessage :=
  { key := { fromMe := true, remoteJid := some "me@s.whatsapp.net",
             remoteJidAlt := none, id := some "B1" },
    message := some { emptyContent with conversation := some "hello" },
    messageTimestamp := 1 }

/-- An envelope whose key has every optional field absent. -/
def bareMsg : WAMessage :=
  { key := { fromMe := false, remoteJid := none, remoteJidAlt := none, id := none },
    message := some { emptyContent with conversation := some "hey" },
    messageTimestamp := 3 }

/-- The record `processMessage` produces for `bareMsg`. -/
def inboundBare : InboundMessage :=
  { id := "", sender := "", pn := "", content := "hey",
    timestamp := 3, isGroup := false }

-- ─────────────────────────────────────────────
-- Concrete client states and server inputs
-- ─────────────────────────────────────────────

/-- Client state after a connect and a successful open. -/
def sConnected : ClientState :=
  runClient initClient [CEvent.connectCall, CEvent.connOpen]

/-- Client state after a connect, an open, and one transient closure
(Boom status 428, a non-logout code): the surfaced status is
`disconnected`, one reconnect timer is pending, and the socket handle is
still set. -/
def sClosedTransient : ClientState :=
  runClient initClient [CEvent.connectCall, CEvent.connOpen, CEvent.connClose 428]

/-- The `String(error)` text of a typical `JSON.parse` failure. -/
def parseFailText : String := "SyntaxError: Unexpected token o in JSON at position 1"

/-- An open controller connection with an empty outbox. -/
def connA : Conn := { readyStateOpen := true, sent := [] }

/-- A closing controller connection (not writable). -/
def connC : Conn := { readyStateOpen := false, sent := ["old"] }

/-- A stand-in for the external `JSON.stringify`. -/
def stringifyConst : BridgeEvent → String := fun _ => "statusframe"

/-- A concrete status event. -/
def evStatus : BridgeEvent := BridgeEvent.status "connected"

-- ─────────────────────────────────────────────
-- Reachability of the reconnect-guard invariant
-- ─────────────────────────────────────────────

/-- Each step preserves the guard-to-pending-timer invariant. -/
lemma clientInv_step (s : ClientState) (e : CEvent) (h : ClientInv s) :
    ClientInv (stepClient s e).1 := by
  rcases h with ⟨h1, h2⟩ | ⟨h1, h2⟩ <;>
    cases e <;>
      simp only [stepClient] <;>
        first
          | (split_ifs <;> simp_all [ClientInv])
          | simp_all [ClientInv]

/-- The invariant holds along any run. -/
lemma clientInv_run (s : ClientState) (evs : List CEvent) (h : ClientInv s) :
    ClientInv (runClient s evs) := by
  induction evs generalizing s with
  | nil => exact h
  | cons e rest ih => exact ih _ (clientInv_step s e h)

/-- The initial state satisfies the invariant. -/
lemma clientInv_init : ClientInv initClient := Or.inr ⟨rfl, rfl⟩

-- ─────────────────────────────────────────────
-- Claims C4, C9: extraction precedence
-- ─────────────────────────────────────────────

/-- Claim C4 (confirmed): `extractMessageContent` extracts by first-match
precedence — plain conversation text, then extended-text body, then an
image/video/document caption prefixed with exactly `"[Image] "`,
`"[Video] "` or `"[Document] "`, then the `"[Voice Message]"` placeholder
for an audio message; an envelope matching none of these (or with no
payload at all) produces no output. -/
theorem c4_extraction_precedence (msg : WAMessage) :
    (msg.message = none → extractMessageContent msg = none) ∧
    (∀ m, msg.message = some m →
      ((∀ t, truthyStr m.conversation = some t →
          extractMessageContent msg = some t) ∧
       (truthyStr m.conversation = none →
        ((∀ t, truthyStr (m.extendedTextMessage.bind ExtendedTextMessage.text) = some t →
            extractMessageContent msg = some t) ∧
         (truthyStr (m.extendedTextMessage.bind ExtendedTextMessage.text) = none →
          ((∀ c, truthyStr (m.imageMessage.bind ImageMessage.caption) = some c →
              extractMessageContent msg = some ("[Image] " ++ c)) ∧
           (truthyStr (m.imageMessage.bind ImageMessage.caption) = none →
            ((∀ c, truthyStr (m.videoMessage.bind VideoMessage.caption) = some c →
                extractMessageContent msg = some ("[Video] " ++ c)) ∧
             (truthyStr (m.videoMessage.bind VideoMessage.caption) = none →
              ((∀ c, truthyStr (m.documentMessage.bind DocumentMessage.caption) = some c →
                  extractMessageContent msg = some ("[Document] " ++ c)) ∧
               (truthyStr (m.documentMessage.bind DocumentMessage.caption) = none →
                ((m.audioMessage = some () →
                    extractMessageContent msg = some "[Voice Message]") ∧
                 (m.audioMessage = none →
                    extractMessageContent msg = none))))))))))))) := by
  constructor
  · intro h
    simp [extractMessageContent, h]
  · intro m hm
    refine ⟨fun t ht => ?_, fun h1 =>
      ⟨fun t ht => ?_, fun h2 =>
        ⟨fun c hc => ?_, fun h3 =>
          ⟨fun c hc => ?_, fun h4 =>
            ⟨fun c hc => ?_, fun h5 =>
              ⟨fun ha => ?_, fun ha => ?_⟩⟩⟩⟩⟩⟩ <;>
      simp [extractMessageContent, hm, *]

/-- Witness for C4: an envelope carrying only a document caption yields
exactly the bracketed document form. -/
theorem c4_witness :
    extractMessageContent docOnlyMsg = some "[Document] quarterly report" := by
  have h := (c4_extraction_precedence docOnlyMsg).2 _ rfl
  exact ((((h.2 rfl).2 rfl).2 rfl).2 rfl).1 "quarterly report" rfl

/-- Counterexample to C9 as stated: this envelope has a voice/audio field
and no caption anywhere, yet its extracted content is the conversation
text `"hi"`, not the `"[Voice Message]"` placeholder — the placeholder is
not produced "regardless of what other fields are present". -/
theorem c9_counterexample :
    audioPlusTextMsg.message.map MessageContent.audioMessage = some (some ()) ∧
    audioPlusTextMsg.message.map MessageContent.imageMessage = some none ∧
    audioPlusTextMsg.message.map MessageContent.videoMessage = some none ∧
    audioPlusTextMsg.message.map MessageContent.documentMessage = some none ∧
    extractMessageContent audioPlusTextMsg = some "hi" ∧
    extractMessageContent audioPlusTextMsg ≠ some "[Voice Message]" := by
  decide

/-- Claim C9 (corrected): for an envelope with a voice/audio field, the
output is exactly `"[Voice Message]"` provided no higher-precedence
branch matches (no non-empty conversation text, extended text, or
image/video/document caption). -/
theorem c9_voice_placeholder (msg : WAMessage) (m : MessageContent)
    (hm : msg.message = some m)
    (ha : m.audioMessage = some ())
    (h1 : truthyStr m.conversation = none)
    (h2 : truthyStr (m.extendedTextMessage.bind ExtendedTextMessage.text) = none)
    (h3 : truthyStr (m.imageMessage.bind ImageMessage.caption) = none)
    (h4 : truthyStr (m.videoMessage.bind VideoMessage.caption) = none)
    (h5 : truthyStr (m.documentMessage.bind DocumentMessage.caption) = none) :
    extractMessageContent msg = some "[Voice Message]" := by
  simp [extractMessageContent, hm, h1, h2, h3, h4, h5, ha]

/-- Witness for the corrected C9: a caption-less voice-only envelope
yields the placeholder. -/
theorem c9_witness : extractMessageContent audioOnlyMsg = some "[Voice Message]" :=
  c9_voice_placeholder audioOnlyMsg _ rfl rfl rfl rfl rfl rfl rfl

-- ─────────────────────────────────────────────
-- Claim C5: own-message / status-broadcast filter
-- ─────────────────────────────────────────────

/-- Claim C5 (confirmed): an envelope sent by the session's own account,
or addressed to the reserved status-broadcast conversation, produces no
output from the upsert handler, whatever its content. -/
theorem c5_hard_filter (msg : WAMessage)
    (h : msg.key.fromMe = true ∨ msg.key.remoteJid = some "status@broadcast") :
    processMessage msg = none := by
  rcases h with h | h
  · simp [processMessage, h]
  · cases hf : msg.key.fromMe <;> simp [processMessage, h, hf]

/-- Witness for C5: an own message whose content is perfectly extractable
is still dropped. -/
theorem c5_witness :
    extractMessageContent ownMsg = some "hello" ∧ processMessage ownMsg = none :=
  ⟨by decide, c5_hard_filter ownMsg (Or.inl rfl)⟩

-- ─────────────────────────────────────────────
-- Claim C10: totality of the emitted record's fields
-- ─────────────────────────────────────────────

/-- Claim C10 (confirmed): whenever the upsert handler emits a record, a
missing message id, conversation address or alternate sender address is
replaced by the empty string, and `isGroup` is `false` whenever the
conversation address is absent or lacks the `"@g.us"` suffix. -/
theorem c10_field_totality (msg : WAMessage) (r : InboundMessage)
    (h : processMessage msg = some r) :
    (msg.key.id = none → r.id = "") ∧
    (msg.key.remoteJid = none → r.sender = "") ∧
    (msg.key.remoteJidAlt = none → r.pn = "") ∧
    (msg.key.remoteJid = none → r.isGroup = false) ∧
    (∀ j, msg.key.remoteJid = some j → j.endsWith "@g.us" = false →
      r.isGroup = false) := by
  by_cases hf : msg.key.fromMe = true
  · simp [processMessage, hf] at h
  · by_cases hj : msg.key.remoteJid = some "status@broadcast"
    · simp [processMessage, hf, hj] at h
    · cases hE : extractMessageContent msg with
      | none => simp [processMessage, hf, hj, hE] at h
      | some content =>
        by_cases hc : content = ""
        · simp [processMessage, hf, hj, hE, hc] at h
        · simp only [processMessage, hf, hj, hE, hc, if_neg, if_false,
            Bool.false_eq_true, ite_false, Option.some.injEq] at h
          subst h
          refine ⟨?_, ?_, ?_, ?_, ?_⟩ <;> intros <;> simp_all

/-- Witness for C10: an envelope with every optional key field absent
yields a record whose string fields are empty and whose `isGroup` is
`false`. -/
theorem c10_witness :
    inboundBare.id = "" ∧ inboundBare.sender = "" ∧ inboundBare.pn = "" ∧
    inboundBare.isGroup = false :=
  have h := c10_field_totality bareMsg inboundBare (by decide)
  ⟨h.1 rfl, h.2.1 rfl, h.2.2.1 rfl, h.2.2.2.1 rfl⟩

-- ─────────────────────────────────────────────
-- Claim C2: at most one pending reconnect timer
-- ─────────────────────────────────────────────

/-- Claim C2 (confirmed): along every event trace at most one reconnect
timer is pending at any instant; a closure arriving while a retry is
already pending schedules no additional timer; and two non-logout
closures within the retry delay window (no timer firing between them)
schedule exactly one reconnect in total. -/
theorem c2_single_pending_reconnect :
    (∀ evs : List CEvent, (runClient initClient evs).pendingTimers ≤ 1) ∧
    (∀ (s : ClientState) (code : Nat), s.reconnecting = true →
      (stepClient s (CEvent.connClose code)).1.pendingTimers = s.pendingTimers) ∧
    (runClient initClient
      [CEvent.connectCall, CEvent.connOpen,
       CEvent.connClose 428, CEvent.connClose 428]).timersScheduled = 1 := by
  refine ⟨?_, ?_, by decide⟩
  · intro evs
    rcases clientInv_run initClient evs clientInv_init with ⟨_, h2⟩ | ⟨_, h2⟩ <;>
      simp [h2]
  · intro s code hr
    simp only [stepClient]
    split_ifs with hA hB
    · rfl
    · exact absurd hB.2 (by simp [hr])
    · rfl

/-- Witness for C2: in the concrete state reached after a transient
closure the retry guard is set, and a further closure leaves the pending
timer count unchanged. -/
theorem c2_witness :
    sClosedTransient.reconnecting = true ∧
    (stepClient sClosedTransient (CEvent.connClose 428)).1.pendingTimers =
      sClosedTransient.pendingTimers :=
  ⟨by decide, c2_single_pending_reconnect.2.1 sClosedTransient 428 (by decide)⟩

-- ─────────────────────────────────────────────
-- Claim C3: closure classification
-- ─────────────────────────────────────────────

/-- Counterexample to C3 as stated: with a retry already pending, a
second non-logout closure (status 428) schedules no reconnect — the
cumulative count of scheduled timers stays at 1, so it is not the case
that every non-logout closure schedules exactly one reconnect. -/
theorem c3_counterexample :
    (428 : Nat) ≠ loggedOut ∧
    sClosedTransient.sockPresent = true ∧
    sClosedTransient.timersScheduled = 1 ∧
    (stepClient sClosedTransient (CEvent.connClose 428)).1.timersScheduled = 1 := by
  decide

/-- Claim C3 (corrected): a logout-classified closure surfaces exactly
one `disconnected` status, schedules nothing, and changes nothing else;
with no pending timer, the timer event is a no-op, so the session can
resume only via an explicit `connect()`; a non-logout closure with no
retry pending schedules exactly one reconnect with the fixed 5000 ms
delay; a non-logout closure with a retry pending schedules none. -/
theorem c3_closure_classification :
    (∀ s : ClientState, s.sockPresent = true →
      stepClient s (CEvent.connClose loggedOut) =
        ({ s with lastStatus := some "disconnected" },
         [Effect.statusEmit "disconnected"])) ∧
    (∀ s : ClientState, s.pendingTimers = 0 →
      stepClient s CEvent.timerFire = (s, [])) ∧
    (∀ (s : ClientState) (code : Nat), s.sockPresent = true →
      code ≠ loggedOut → s.reconnecting = false →
      (stepClient s (CEvent.connClose code)).2 =
        [Effect.statusEmit "disconnected", Effect.scheduleReconnect 5000] ∧
      (stepClient s (CEvent.connClose code)).1.pendingTimers = s.pendingTimers + 1 ∧
      (stepClient s (CEvent.connClose code)).1.timersScheduled =
        s.timersScheduled + 1) ∧
    (∀ (s : ClientState) (code : Nat), s.reconnecting = true →
      (stepClient s (CEvent.connClose code)).1.timersScheduled =
        s.timersScheduled) := by
  refine ⟨?_, ?_, ?_, ?_⟩
  · intro s hs
    simp [stepClient, hs]
  · intro s h0
    simp [stepClient, h0]
  · intro s code hs hc hr
    refine ⟨?_, ?_, ?_⟩ <;> simp [stepClient, hs, hc, hr]
  · intro s code hr
    simp only [stepClient]
    split_ifs with hA hB
    · rfl
    · exact absurd hB.2 (by simp [hr])
    · rfl

/-- Witness for the corrected C3: from the concrete connected state, a
logout closure emits one `disconnected` status and schedules nothing. -/
theorem c3_witness :
    stepClient sConnected (CEvent.connClose loggedOut) =
      ({ sConnected with lastStatus := some "disconnected" },
       [Effect.statusEmit "disconnected"]) :=
  c3_closure_classification.1 sConnected (by decide)

-- ─────────────────────────────────────────────
-- Claim C8: connect() while connected
-- ─────────────────────────────────────────────

/-- Counterexample to C8 as stated: from the state reached after connect
and open (last surfaced status `connected`, one upstream socket created),
a second `connect()` call creates a second upstream socket — `connect()`
is not idempotent from `Connected`. -/
theorem c8_counterexample :
    (runClient initClient [CEvent.connectCall, CEvent.connOpen]).lastStatus =
      some "connected" ∧
    (runClient initClient [CEvent.connectCall, CEvent.connOpen]).sessionsCreated = 1 ∧
    (runClient initClient
      [CEvent.connectCall, CEvent.connOpen, CEvent.connectCall]).sessionsCreated = 2 := by
  decide

/-- Claim C8 (corrected): `connect()` carries no state guard — called
while the surfaced status is `connected` it unconditionally builds one
fresh upstream socket (so a duplicate session is created; the call itself
emits no status). -/
theorem c8_connect_not_guarded (s : ClientState)
    (_h : s.lastStatus = some "connected") :
    (stepClient s CEvent.connectCall).1.sessionsCreated = s.sessionsCreated + 1 ∧
    (stepClient s CEvent.connectCall).1.sockPresent = true ∧
    (stepClient s CEvent.connectCall).2 = [Effect.createSocket] := by
  simp [stepClient]

/-- Witness for the corrected C8 at the concrete connected state. -/
theorem c8_witness :
    (stepClient sConnected CEvent.connectCall).1.sessionsCreated =
      sConnected.sessionsCreated + 1 ∧
    (stepClient sConnected CEvent.connectCall).1.sockPresent = true ∧
    (stepClient sConnected CEvent.connectCall).2 = [Effect.createSocket] :=
  c8_connect_not_guarded sConnected (by decide)

-- ─────────────────────────────────────────────
-- Claim C1: send guard
-- ─────────────────────────────────────────────

/-- Counterexample to C1 as stated: after a transient closure the
surfaced session state is `disconnected`, yet `sendMessage` delegates to
the upstream library (the guard tests only `this.sock`, which a closure
does not clear) — so a send attempted while Disconnected does reach the
upstream library. -/
theorem c1_counterexample :
    sClosedTransient.lastStatus = some "disconnected" ∧
    sendMessage sClosedTransient = SendOutcome.delegatedUpstream := by
  decide

/-- Claim C1 (corrected): `sendMessage` throws the `Not connected` error
exactly when no socket handle exists (before the first `connect()` or
after `disconnect()`), and this is surfaced to the requesting connection
as an error acknowledgement; whenever a socket handle exists — whatever
the session state — the send is delegated upstream and acknowledged with
a `sent` frame. -/
theorem c1_send_guard (wa : ClientState) (toAddr text : String) :
    (sendMessage wa = SendOutcome.threwNotConnected ↔ wa.sockPresent = false) ∧
    (wa.sockPresent = false →
      onWsMessage true wa (InFrame.parsedCmd "send" toAddr text) =
        { toRequester := [OutFrame.errorF "Error: Not connected"], toOthers := [] }) ∧
    (wa.sockPresent = true →
      onWsMessage true wa (InFrame.parsedCmd "send" toAddr text) =
        { toRequester := [OutFrame.sentF toAddr], toOthers := [] }) := by
  refine ⟨?_, ?_, ?_⟩
  · cases hw : wa.sockPresent <;> simp [sendMessage, hw]
  · intro hw
    simp [onWsMessage, handleCommand, sendMessage, hw]
  · intro hw
    simp [onWsMessage, handleCommand, sendMessage, hw]

/-- Witness for the corrected C1: in the initial state (no socket yet)
a `send` command is answered with the error acknowledgement produced from
the thrown `Not connected` error. -/
theorem c1_witness :
    (sendMessage initClient = SendOutcome.threwNotConnected ↔
      initClient.sockPresent = false) ∧
    onWsMessage true initClient (InFrame.parsedCmd "send" "x@s.whatsapp.net" "ping") =
      { toRequester := [OutFrame.errorF "Error: Not connected"], toOthers := [] } :=
  ⟨(c1_send_guard initClient "x@s.whatsapp.net" "ping").1,
   (c1_send_guard initClient "x@s.whatsapp.net" "ping").2.1 rfl⟩

-- ─────────────────────────────────────────────
-- Claim C7: protocol errors
-- ─────────────────────────────────────────────

set_option maxRecDepth 4000 in
/-- Counterexample to C7 as stated: a frame that fails `JSON.parse` is
answered with an error frame carrying the stringified exception, which is
not of the form `unknown command type: <type>` (every string of that form
begins with the 22-character prefix `unknown command type: `, and this
reply does not). -/
theorem c7_counterexample :
    onWsMessage true initClient (InFrame.malformed parseFailText) =
      { toRequester := [OutFrame.errorF parseFailText], toOthers := [] } ∧
    parseFailText.take 22 ≠ "unknown command type: " := by
  exact ⟨rfl, by decide⟩

/-- Claim C7 (corrected): an unparseable frame is answered, on the same
connection only, with an error frame carrying `String(error)` of the
parse exception; a parsed frame whose declared type is not `send` is
answered, on the same connection only, with
`unknown command type: <type>`; no inbound frame ever causes a frame to
be sent to any other connection. -/
theorem c7_protocol_errors (waPresent : Bool) (wa : ClientState) :
    (∀ e, onWsMessage waPresent wa (InFrame.malformed e) =
      { toRequester := [OutFrame.errorF e], toOthers := [] }) ∧
    (∀ ty toAddr text, ty ≠ "send" →
      onWsMessage waPresent wa (InFrame.parsedCmd ty toAddr text) =
        { toRequester := [OutFrame.errorF ("unknown command type: " ++ ty)],
          toOthers := [] }) ∧
    (∀ f, (onWsMessage waPresent wa f).toOthers = []) := by
  refine ⟨fun e => rfl, fun ty toAddr text hty => ?_, fun f => ?_⟩
  · simp [onWsMessage, handleCommand, hty]
  · cases f with
    | malformed e => rfl
    | parsedCmd ty toAddr text =>
      simp only [onWsMessage]
      cases handleCommand waPresent wa ty toAddr text <;> rfl

/-- Witness for the corrected C7: an unrecognized command type gets the
unknown-command error frame on the requesting connection only. -/
theorem c7_witness :
    onWsMessage true initClient (InFrame.parsedCmd "subscribe" "a" "b") =
      { toRequester := [OutFrame.errorF "unknown command type: subscribe"],
        toOthers := [] } :=
  (c7_protocol_errors true initClient).2.1 "subscribe" "a" "b" (by decide)

-- ─────────────────────────────────────────────
-- Claim C6: broadcast fan-out
-- ─────────────────────────────────────────────

/-- Claim C6 (confirmed): `broadcast` serializes once and writes that one
frame to every registered connection whose transport is open, each
exactly once (outbox grows by exactly that frame); a connection that is
not open is left completely unchanged, and no connection is removed (the
registry keeps its length). -/
theorem c6_broadcast_fanout (stringify : BridgeEvent → String) (event : BridgeEvent)
    (cs : List Conn) (i : Nat) (h : i < cs.length) :
    (broadcast stringify event cs).length = cs.length ∧
    ((cs.get ⟨i, h⟩).readyStateOpen = true →
      (broadcast stringify event cs)[i]? =
        some { cs.get ⟨i, h⟩ with
               sent := (cs.get ⟨i, h⟩).sent ++ [stringify event] }) ∧
    ((cs.get ⟨i, h⟩).readyStateOpen = false →
      (broadcast stringify event cs)[i]? = some (cs.get ⟨i, h⟩)) := by
  refine ⟨by simp [broadcast], ?_, ?_⟩ <;>
    intro hopen <;>
      simp only [List.get_eq_getElem] at hopen <;>
      simp [broadcast, List.getElem?_map, List.getElem?_eq_getElem h, hopen]

/-- Witness for C6 (Scenario A shape): with two open connections and one
closing connection registered, a status event lands exactly once in an
open connection's outbox while the closing connection is untouched. -/
theorem c6_witness :
    (broadcast stringifyConst evStatus [connA, connA, connC])[0]? =
      some { connA with sent := connA.sent ++ ["statusframe"] } ∧
    (broadcast stringifyConst evStatus [connA, connA, connC])[2]? = some connC :=
  ⟨(c6_broadcast_fanout stringifyConst evStatus [connA, connA, connC] 0
      (by decide)).2.1 rfl,
   (c6_broadcast_fanout stringifyConst evStatus [connA, connA, connC] 2
      (by decide)).2.2 rfl⟩

end OxiBot
